import Mathlib

/-
Verification of the food-advice batch pipeline (orchestrator lambda and
report-stats lambda). The Python sources are shallowly embedded: JSON values
become an inductive type, Python exceptions become an error type threaded
through Except, the external json module and the two collaborator lambdas
become oracle fields of an environment record, and the Postgres store becomes
an explicit list of committed batches recorded in a trace.
-/

set_option autoImplicit false

namespace FoodAdvice

/-- A JSON value as produced by json.loads. JSON numbers are modelled as
integers; the claims under study never involve fractional numbers. -/
inductive JVal where
  | null
  | bool (b : Bool)
  | num (n : Int)
  | str (s : String)
  | arr (xs : List JVal)
  | obj (fields : List (String × JVal))

/-- Python exceptions that the embedded code can raise. Each constructor
carries enough data to render the message str(e) used in error bodies. -/
inductive PyErr where
  | jsonDecode (s : String)
  | valueError (s : String)
  | typeError (s : String)
  | attributeError (s : String)
  | runtimeError (s : String)
  | clientError (s : String)
  | keyError (s : String)
  | upstream (status : Int) (body : JVal)

/-- Minimal textual rendering of a JSON value for diagnostic messages. The
exact Python repr is not reproduced; no claim depends on it. -/
def jvalText : JVal → String
  | .null => "None"
  | .bool b => if b then "True" else "False"
  | .num n => toString n
  | .str s => s
  | .arr _ => "<list>"
  | .obj _ => "<dict>"

/-- str(e) for the modelled exceptions. -/
def PyErr.msg : PyErr → String
  | .jsonDecode s => "Invalid JSON: " ++ s
  | .valueError s => s
  | .typeError s => s
  | .attributeError s => s
  | .runtimeError s => s
  | .clientError s => s
  | .keyError s => s
  | .upstream n b => "Lambda error: " ++ toString n ++ " " ++ jvalText b

/-- First-match lookup in a JSON object field list (Python dict access). -/
def jLookup (k : String) : List (String × JVal) → Option JVal
  | [] => none
  | (k2, v) :: rest => if k2 = k then some v else jLookup k rest

/-- Lookup on a JSON value when it is an object, none otherwise. Used in
theorem statements to inspect response bodies. -/
def jvLookup (v : JVal) (k : String) : Option JVal :=
  match v with
  | .obj fs => jLookup k fs
  | _ => none

/-- Python truthiness of a JSON value. -/
def pyTruthy : JVal → Bool
  | .null => false
  | .bool b => b
  | .num n => n != 0
  | .str s => s != ""
  | .arr xs => !xs.isEmpty
  | .obj fs => !fs.isEmpty

/-- Python x or y on JSON values: the left operand if truthy, else the right. -/
def pyOr (a b : JVal) : JVal :=
  if pyTruthy a then a else b

/-- Whitespace characters removed by str.strip and ignored by int(). -/
def pyIsSpace (c : Char) : Bool :=
  c == ' ' || c == '\t' || c == '\n' || c == '\r' || c == '\u000B' || c == '\u000C'

/-- str.strip(): whitespace dropped from both ends. Implemented on the
character list so that it evaluates inside kernel-checked proofs; the core
library trim is not definitionally reducible. -/
def pyStripStr (s : String) : String :=
  ⟨((s.data.dropWhile pyIsSpace).reverse.dropWhile pyIsSpace).reverse⟩

/-- Decimal digit test. -/
def isDigitChar (c : Char) : Bool := '0' ≤ c && c ≤ '9'

/-- Accumulating decimal read of a digit list. -/
def digitsToNat : List Char → Nat → Nat
  | [], acc => acc
  | c :: cs, acc => digitsToNat cs (acc * 10 + (c.toNat - 48))

/-- Python int(s) on a string: optional surrounding whitespace, optional sign,
then a nonempty run of decimal digits. (Underscore digit grouping is not
modelled; no input in the claims uses it.) -/
def strToInt (s : String) : Option Int :=
  match (pyStripStr s).data with
  | '-' :: ds =>
    if !ds.isEmpty && ds.all isDigitChar then some (-(digitsToNat ds 0 : Nat) : Int) else none
  | '+' :: ds =>
    if !ds.isEmpty && ds.all isDigitChar then some ((digitsToNat ds 0 : Nat) : Int) else none
  | ds =>
    if !ds.isEmpty && ds.all isDigitChar then some ((digitsToNat ds 0 : Nat) : Int) else none

/-- ASCII lowercasing of one character (str.lower on the inputs at hand). -/
def lowerChar (c : Char) : Char :=
  if 'A' ≤ c && c ≤ 'Z' then Char.ofNat (c.toNat + 32) else c

/-- str.lower(), implemented reducibly on the character list. -/
def lowerStr (s : String) : String := ⟨s.data.map lowerChar⟩

/-- Python int(x) on a JSON value: numbers pass through, booleans become 0/1,
strings are parsed, everything else raises. -/
def pyIntE : JVal → Except PyErr Int
  | .num n => .ok n
  | .bool b => .ok (if b then 1 else 0)
  | .str s =>
    match strToInt s with
    | some n => .ok n
    | none => .error (.valueError "invalid literal for int")
  | .null => .error (.typeError "int argument must not be None")
  | _ => .error (.typeError "int argument must be a string or a number")

/-- Python str(x) for the values the stats handler can see. Lists and dicts
are approximated by placeholders: their Python rendering starts with a
bracket, so like the placeholder it can never equal the string true after
lowercasing, which is all the handler checks. -/
def pyStr : JVal → String
  | .null => "None"
  | .bool b => if b then "True" else "False"
  | .num n => toString n
  | .str s => s
  | .arr _ => "<list>"
  | .obj _ => "<dict>"

/-- Python d.get(k): null (None) when the key is absent, raises when the
receiver is not a dict. -/
def pyGet (v : JVal) (k : String) : Except PyErr JVal :=
  match v with
  | .obj fs => .ok ((jLookup k fs).getD .null)
  | _ => .error (.attributeError ("object has no attribute get: " ++ k))

/-- Python d.get(k, default). -/
def pyGetD (v : JVal) (k : String) (d : JVal) : Except PyErr JVal :=
  match v with
  | .obj fs => .ok ((jLookup k fs).getD d)
  | _ => .error (.attributeError ("object has no attribute get: " ++ k))

/-- Python d[k] subscription: KeyError when absent, TypeError on non-dicts. -/
def pyItem (v : JVal) (k : String) : Except PyErr JVal :=
  match v with
  | .obj fs =>
    match jLookup k fs with
    | some x => .ok x
    | none => .error (.keyError k)
  | _ => .error (.typeError ("value is not subscriptable by " ++ k))

/-- Python x.strip(): raises unless x is a string. -/
def pyStripE : JVal → Except PyErr String
  | .str s => .ok (pyStripStr s)
  | _ => .error (.attributeError "object has no attribute strip")

/-- A persisted row of the favorite_foods table, as built by the orchestrator
handler: (user_id, name, possible_ingredients, diet, created_at). The
ingredients and diet slots keep whatever JSON value the parser supplied,
because the source performs no type check on them. Timestamps are opaque
naturals. -/
structure Row where
  user_id : String
  name : String
  possible_ingredients : JVal
  diet : JVal
  created_at : Nat

/-- The external world of one orchestrator invocation. jsonLoads and
jsonDumps stand for the json module; genRaw and parseRaw give the raw
response payload of the i-th generator / parser lambda invocation (none
models a transport-level ClientError); uuid gives the uuid4 drawn at
iteration i; now is the single clock reading taken before the loop;
connectOk tells whether _connect_pg succeeds. -/
structure Env where
  jsonLoads : String → Option JVal
  jsonDumps : JVal → String
  genRaw : Nat → Option String
  parseRaw : Nat → Option String
  uuid : Nat → String
  now : Nat
  connectOk : Bool

/-- The statusCode field of a decoded envelope object, None when absent
(envelope.get("statusCode")). -/
def statusOf (fs : List (String × JVal)) : JVal :=
  (jLookup "statusCode" fs).getD .null

/-- The body field of a decoded envelope object, None when absent. -/
def bodyOf (fs : List (String × JVal)) : JVal :=
  (jLookup "body" fs).getD .null

/-- The dual-mode unwrap at the end of _invoke_lambda: a string body gets one
nested json.loads attempt, returning the decoded value on success and the raw
string unchanged on failure; a non-string body is returned as is. -/
def unwrapBody (env : Env) : JVal → JVal
  | .str s =>
    match env.jsonLoads s with
    | some v => v
    | none => .str s
  | b => b

/-- Embedding of _invoke_lambda (orchestrator app.py lines 38-76). The
argument is the raw response payload of the one synchronous invocation, none
standing for a transport ClientError that is re-raised. -/
def invokeLambda (env : Env) (rawResp : Option String) : Except PyErr JVal :=
  match rawResp with
  | none => .error (.clientError "failed to invoke lambda")
  | some raw =>
    match env.jsonLoads raw with
    | none => .error (.jsonDecode raw)
    | some envl =>
      match envl with
      | .obj fs =>
        let status := statusOf fs
        let body := bodyOf fs
        if pyTruthy status then
          match pyIntE status with
          | .error e => .error e
          | .ok n =>
            if 400 ≤ n then .error (.upstream n body)
            else .ok (unwrapBody env body)
        else .ok (unwrapBody env body)
      | _ => .error (.attributeError "envelope has no attribute get")

/-- Embedding of _get_generator_answer (lines 79-89): invoke the generator,
re-encode a non-string body to text, return the trimmed text. -/
def getGeneratorAnswer (env : Env) (rawResp : Option String) : Except PyErr String :=
  match invokeLambda env rawResp with
  | .error e => .error e
  | .ok (.str s) => .ok (pyStripStr s)
  | .ok b => .ok (pyStripStr (env.jsonDumps b))

/-- The string-body fallback inside _parse_answer (lines 102-106): a body
that is still a string after the invoke-level unwrap gets one more decode
attempt and raises on failure, carrying the raw text. -/
def nestedDecodeOrFail (env : Env) : JVal → Except PyErr JVal
  | .str s =>
    match env.jsonLoads s with
    | some v => .ok v
    | none => .error (.runtimeError ("Parser returned unexpected text: " ++ s))
  | b => .ok b

/-- The shape validation inside _parse_answer (lines 108-113): the body must
be a dict whose favorite_foods entry is a list of exactly 3 elements; the
body itself is returned unchanged. No per-entry field is inspected. -/
def validateFoods (body : JVal) : Except PyErr JVal :=
  match pyGet body "favorite_foods" with
  | .error e => .error e
  | .ok foods =>
    match foods with
    | .arr xs =>
      if xs.length = 3 then .ok body
      else .error (.runtimeError ("Parser returned wrong number of items, expected 3: " ++ jvalText foods))
    | _ => .error (.runtimeError ("Unexpected parser format: " ++ jvalText body))

/-- Embedding of _parse_answer (lines 92-113). -/
def parseAnswer (env : Env) (rawResp : Option String) : Except PyErr JVal :=
  match invokeLambda env rawResp with
  | .error e => .error e
  | .ok body0 =>
    match nestedDecodeOrFail env body0 with
    | .error e => .error e
    | .ok body => validateFoods body

/-- Construction of one pending row inside the loop (handler lines 246-251):
name = (f.get("name") or "").strip(), ingredients =
f.get("possible_ingredients", []) or [], diet = f.get("diet", "normal"). -/
def rowOfFood (uid : String) (now : Nat) (f : JVal) : Except PyErr Row :=
  match pyGet f "name" with
  | .error e => .error e
  | .ok nv =>
    match pyStripE (pyOr nv (.str "")) with
    | .error e => .error e
    | .ok name =>
      match pyGetD f "possible_ingredients" (.arr []) with
      | .error e => .error e
      | .ok iv =>
        match pyGetD f "diet" (.str "normal") with
        | .error e => .error e
        | .ok diet => .ok ⟨uid, name, pyOr iv (.arr []), diet, now⟩

/-- The inner for f in foods loop: appends rows one at a time and counts
them, stopping at the first exception (earlier appends stay in the buffer,
exactly as in Python). -/
def addFoods (uid : String) (now : Nat) :
    List JVal → List Row → Nat → List Row × Nat × Option PyErr
  | [], pend, tot => (pend, tot, none)
  | f :: fs, pend, tot =>
    match rowOfFood uid now f with
    | .error e => (pend, tot, some e)
    | .ok r => addFoods uid now fs (pend ++ [r]) (tot + 1)

/-- Mutable state of the orchestrator loop, plus the committed batches of the
store and the number of collaborator invocations made so far. -/
structure LoopState where
  totalInserted : Nat
  pending : List Row
  batches : List (List Row)
  genCalls : Nat
  parseCalls : Nat

/-- One iteration of the orchestrator loop (handler lines 234-256): generator
call, parser call, row construction, and the every-10-iterations flush.
_insert_batch returns without touching the store on an empty row list. -/
def runIter (env : Env) (i : Nat) (st : LoopState) : LoopState × Option PyErr :=
  let st1 := { st with genCalls := st.genCalls + 1 }
  match getGeneratorAnswer env (env.genRaw i) with
  | .error e => (st1, some e)
  | .ok _answerText =>
    let st2 := { st1 with parseCalls := st1.parseCalls + 1 }
    match parseAnswer env (env.parseRaw i) with
    | .error e => (st2, some e)
    | .ok parsed =>
      match pyItem parsed "favorite_foods" with
      | .error e => (st2, some e)
      | .ok foodsV =>
        match foodsV with
        | .arr foods =>
          match addFoods (env.uuid i) env.now foods st2.pending st2.totalInserted with
          | (pend2, tot2, some e) =>
            ({ st2 with pending := pend2, totalInserted := tot2 }, some e)
          | (pend2, tot2, none) =>
            let st3 := { st2 with pending := pend2, totalInserted := tot2 }
            if (i + 1) % 10 = 0 then
              (if st3.pending.isEmpty then st3
               else { st3 with batches := st3.batches ++ [st3.pending], pending := [] }, none)
            else (st3, none)
        | _ => (st2, some (.typeError "favorite_foods is not iterable"))

/-- The for i in range(runs) loop: current index, remaining iterations. An
exception aborts the loop but the state (committed batches included) at the
moment of failure is kept, mirroring the store surviving the raise. -/
def runLoop (env : Env) : Nat → Nat → LoopState → LoopState × Option PyErr
  | _, 0, st => (st, none)
  | i, n + 1, st =>
    match runIter env i st with
    | (st2, some e) => (st2, some e)
    | (st2, none) => runLoop env (i + 1) n st2

/-- An HTTP-style lambda response: status code and JSON body. The constant
headers dict is not modelled. -/
structure Response where
  statusCode : Nat
  body : JVal

/-- Observable side effects of one orchestrator invocation: whether
_connect_pg was called, how many generator and parser invocations were made,
and the batches committed to the store in order. -/
structure Trace where
  connAttempted : Bool
  genCalls : Nat
  parseCalls : Nat
  batches : List (List Row)

/-- The trace of an invocation that performed no side effects at all. -/
def Trace.empty : Trace := ⟨false, 0, 0, []⟩

/-- Robust body parsing at the top of the handler (lines 204-216). -/
def parseRawEvent (env : Env) (event : JVal) : Except PyErr JVal :=
  match event with
  | .obj fs =>
    match jLookup "body" fs with
    | some b =>
      match b with
      | .str s =>
        match env.jsonLoads (if s = "" then emptyObjText else s) with
        | some v => .ok v
        | none => .error (.jsonDecode s)
      | .obj fs2 => .ok (.obj fs2)
      | _ => .ok (.obj [])
    | none => .ok (.obj fs)
  | _ => .ok (.obj [])
where
  /-- The literal default text passed to json.loads when the body string is
  empty. -/
  emptyObjText : String := "\x7b\x7d"

/-- A 500 response carrying str(e), as built by the final except block. -/
def err500 (e : PyErr) : Response := ⟨500, .obj [("error", .str e.msg)]⟩

/-- The default question injected when the request carries none. -/
def DEFAULT_QUESTION : String := "Tell me your three favorite foods."

/-- Embedding of the orchestrator handler (lines 195-276): body parsing,
runs validation, store connection, the iteration loop, the final flush, and
the success / error responses. Exceptions anywhere inside the try are turned
into a 500 response whose body carries str(e). -/
def orchHandler (env : Env) (event : JVal) : Response × Trace :=
  match parseRawEvent env event with
  | .error e => (err500 e, Trace.empty)
  | .ok raw =>
    match pyGet raw "runs" with
    | .error e => (err500 e, Trace.empty)
    | .ok runsV =>
      match pyIntE (pyOr runsV (.num 0)) with
      | .error e => (err500 e, Trace.empty)
      | .ok runs =>
        if runs ≤ 0 then
          (⟨400, .obj [("error", .str "Missing or invalid runs, must be > 0")]⟩, Trace.empty)
        else
          match pyGet raw "question" with
          | .error e => (err500 e, Trace.empty)
          | .ok qv =>
            let _question := pyOr qv (.str DEFAULT_QUESTION)
            if env.connectOk then
              match runLoop env 0 runs.toNat ⟨0, [], [], 0, 0⟩ with
              | (st, some e) => (err500 e, ⟨true, st.genCalls, st.parseCalls, st.batches⟩)
              | (st, none) =>
                let st2 :=
                  if st.pending.isEmpty then st
                  else { st with batches := st.batches ++ [st.pending], pending := [] }
                (⟨200, .obj [("ok", .bool true), ("runs", .num runs),
                             ("inserted_rows", .num st2.totalInserted)]⟩,
                 ⟨true, st2.genCalls, st2.parseCalls, st2.batches⟩)
            else (err500 (.runtimeError "could not connect to postgres"), ⟨true, 0, 0, []⟩)

/-
Report-stats lambda (src/lambdas/report-stats/app.py).
-/

/-- The external world of one report-stats invocation: whether _connect_pg
succeeds, and the values the aggregate query would yield for its two output
columns top_3 and vegetarian_users_count if it ran. -/
structure SEnv where
  connectOk : Bool
  queryTop3 : JVal
  queryVegCount : JVal

/-- Embedding of _parse_rows (report-stats app.py lines 65-74): rows must be
present and convert to a positive int; the int() call is wrapped so that any
conversion failure surfaces as ValueError; the result is capped at 10000.
A non-dict qs cannot reach this point with a dict-like shape: a string or
list receiver makes the membership test or the subscription raise inside the
int try-block, which the source also converts to ValueError, while a number
receiver raises TypeError at the membership test. -/
def parseRowsQ : JVal → Except PyErr Int
  | .obj fs =>
    match jLookup "rows" fs with
    | none => .error (.valueError "Missing required query parameter rows")
    | some v =>
      match pyIntE v with
      | .error _ => .error (.valueError "rows must be an integer")
      | .ok n =>
        if n ≤ 0 then .error (.valueError "rows must be > 0")
        else .ok (min n 10000)
  | .str _ => .error (.valueError "rows must be an integer")
  | .arr _ => .error (.valueError "rows must be an integer")
  | _ => .error (.typeError "argument is not a container")

/-- Number of %s parameter slots in the SQL text of the stats query (lines
93-127): the single LIMIT %s. -/
def statsPlaceholderCount : Nat := 1

/-- The parameter tuple bound at cur.execute (line 128):
(rows_n, strict_veg, strict_veg). -/
def statsParams (rowsN : Int) (strictVeg : Bool) : List JVal :=
  [.num rowsN, .bool strictVeg, .bool strictVeg]

/-- cur.execute followed by fetchone. psycopg2 interpolates the parameter
tuple with percent-formatting, which raises TypeError when the tuple is
longer than the number of %s slots. Were the counts to match, the fetched
row would hold exactly the two aliases the SELECT produces. -/
def executeStats (env : SEnv) (rowsN : Int) (strictVeg : Bool) : Except PyErr JVal :=
  if (statsParams rowsN strictVeg).length ≠ statsPlaceholderCount then
    .error (.typeError "not all arguments converted during string formatting")
  else
    .ok (.obj [("top_3", env.queryTop3), ("vegetarian_users_count", env.queryVegCount)])

/-- qs = (event.get("queryStringParameters") or dict()) for dict events, the
empty dict otherwise (line 86). -/
def qsOf (event : JVal) : JVal :=
  match event with
  | .obj fs => pyOr ((jLookup "queryStringParameters" fs).getD .null) (.obj [])
  | _ => .obj []

/-- The body of the report-stats try block (lines 86-147), as one fallible
computation: parse rows, compute strictVeg, connect, run the query, then
read the keys top5_json, veg_users_count and users_json from the fetched
row and build the 200 response. -/
def statsBody (env : SEnv) (event : JVal) : Except PyErr Response :=
  match parseRowsQ (qsOf event) with
  | .error e => .error e
  | .ok rowsN =>
    let qs := qsOf event
    match pyGetD qs "strictVeg" (.str "false") with
    | .error e => .error e
    | .ok sv =>
      let strictVeg := lowerStr (pyStr sv) == "true"
      if env.connectOk then
        match executeStats env rowsN strictVeg with
        | .error e => .error e
        | .ok res =>
          match pyItem res "top5_json" with
          | .error e => .error e
          | .ok t5 =>
            match pyItem res "veg_users_count" with
            | .error e => .error e
            | .ok vc =>
              match pyItem res "users_json" with
              | .error e => .error e
              | .ok us =>
                .ok ⟨200, .obj [("rows_input", .num rowsN),
                                ("top_5", pyOr t5 (.arr [])),
                                ("veg_users_count", pyOr vc (.num 0)),
                                ("veg_users", pyOr us (.arr []))]⟩
      else .error (.runtimeError "could not connect to postgres")

/-- Embedding of the report-stats handler (lines 76-161): the try body with
a ValueError except arm returning 400 and a catch-all arm returning 500. -/
def statsHandler (env : SEnv) (event : JVal) : Response :=
  match statsBody env event with
  | .ok r => r
  | .error (.valueError m) => ⟨400, .obj [("error", .str m)]⟩
  | .error e => ⟨500, .obj [("error", .str e.msg)]⟩

/-
Concrete oracle environments used to exercise the handlers.
-/

/-- One well-shaped structured food entry, as the parser collaborator
produces it. -/
def goodFood : JVal :=
  .obj [("name", .str "Pizza"),
        ("possible_ingredients", .arr [.str "dough"]),
        ("diet", .str "normal")]

/-- A fully valid parser result: exactly three entries. -/
def goodParsed : JVal := .obj [("favorite_foods", .arr [goodFood, goodFood, goodFood])]

/-- A parser result whose three entries are empty objects: every per-entry
field is missing. -/
def emptyFoodsParsed : JVal :=
  .obj [("favorite_foods", .arr [.obj [], .obj [], .obj []])]

/-- A concrete json.loads oracle: a handful of named raw payloads decode to
fixed envelopes, and every other string (the generator free text included)
fails to decode. -/
def gLoads : String → Option JVal
  | "GENENV" => some (.obj [("statusCode", .num 200), ("body", .str "Dish A; Dish B; Dish C")])
  | "PARSEENV" => some (.obj [("statusCode", .num 200), ("body", goodParsed)])
  | "BADPARSE" => some (.obj [("statusCode", .num 500), ("body", .str "boom")])
  | "EMPTYFOODS" => some (.obj [("statusCode", .num 200), ("body", emptyFoodsParsed)])
  | "TWOFOODS" => some (.obj [("statusCode", .num 200),
      ("body", .obj [("favorite_foods", .arr [.obj [], .obj []])])])
  | "NOSTATUS" => some (.obj [("body", .str "plain text body")])
  | "BADSTATUS" => some (.obj [("statusCode", .str "oops"), ("body", .str "x")])
  | _ => none

/-- A run in which every collaborator call succeeds with well-shaped data:
the canonical no-failure environment. -/
def goodEnv : Env where
  jsonLoads := gLoads
  jsonDumps := fun _ => "reencoded"
  genRaw := fun _ => some "GENENV"
  parseRaw := fun _ => some "PARSEENV"
  uuid := fun i => "user" ++ toString i
  now := 0
  connectOk := true

/-- Like goodEnv, except that the parser collaborator reports an upstream
error status from iteration k onwards. -/
def failParseEnv (k : Nat) : Env :=
  { goodEnv with parseRaw := fun i => if i < k then some "PARSEENV" else some "BADPARSE" }

/-- Like goodEnv, except that the generator invocation itself fails at the
transport level from iteration k onwards. -/
def failGenEnv (k : Nat) : Env :=
  { goodEnv with genRaw := fun i => if i < k then some "GENENV" else none }

/-- Like goodEnv, except that the parser returns three entries with every
field missing. -/
def emptyFoodsEnv : Env := { goodEnv with parseRaw := fun _ => some "EMPTYFOODS" }

/-- A stats environment whose store connection works; the query result
values are irrelevant because the execute call never succeeds. -/
def sEnvGood : SEnv := ⟨true, .null, .null⟩

/-
List bookkeeping for the loop proofs.
-/

/-- The three rows a successful goodEnv-style iteration i appends. -/
def iterRowsG (env : Env) (i : Nat) : List Row :=
  List.replicate 3 ⟨env.uuid i, "Pizza", .arr [.str "dough"], .str "normal", env.now⟩

/-- Concatenation of f s, f (s+1), ..., f (s+n-1). -/
def catRows (f : Nat → List Row) : Nat → Nat → List Row
  | _, 0 => []
  | s, n + 1 => f s ++ catRows f (s + 1) n

/-- The first b committed batches of an uninterrupted run: batch j holds the
rows of iterations 10j .. 10j+9. -/
def chunkBatches (f : Nat → List Row) : Nat → List (List Row)
  | 0 => []
  | b + 1 => chunkBatches f b ++ [catRows f (10 * b) 10]

/-- Flattening of a batch list back into the row production order. -/
def flatRows : List (List Row) → List Row
  | [] => []
  | b :: bs => b ++ flatRows bs

theorem catRows_concat (f : Nat → List Row) :
    ∀ n s, catRows f s (n + 1) = catRows f s n ++ f (s + n) := by
  intro n
  induction n with
  | zero => intro s; simp [catRows]
  | succ m ih =>
    intro s
    calc catRows f s (m + 2) = f s ++ catRows f (s + 1) (m + 1) := rfl
      _ = f s ++ (catRows f (s + 1) m ++ f (s + 1 + m)) := by rw [ih]
      _ = (f s ++ catRows f (s + 1) m) ++ f (s + (m + 1)) := by
            rw [List.append_assoc]; ring_nf
      _ = catRows f s (m + 1) ++ f (s + (m + 1)) := rfl

theorem length_catRows (env : Env) :
    ∀ n s, (catRows (iterRowsG env) s n).length = 3 * n := by
  intro n
  induction n with
  | zero => intro s; simp [catRows]
  | succ m ih =>
    intro s
    simp [catRows, ih, iterRowsG]
    omega

theorem flatRows_append (l1 l2 : List (List Row)) :
    flatRows (l1 ++ l2) = flatRows l1 ++ flatRows l2 := by
  induction l1 with
  | nil => simp [flatRows]
  | cons b bs ih => simp [flatRows, ih]

theorem flatRows_chunkBatches (f : Nat → List Row) :
    ∀ n, flatRows (chunkBatches f n) = catRows f 0 (10 * n) := by
  intro n
  induction n with
  | zero => simp [chunkBatches, catRows, flatRows]
  | succ m ih =>
    have h10 : 10 * (m + 1) = 10 * m + 10 := by ring
    have hsplit : ∀ a b s, catRows f s (a + b) = catRows f s a ++ catRows f (s + a) b := by
      intro a
      induction a with
      | zero => intro b s; simp [catRows]
      | succ a2 iha =>
        intro b s
        have : a2 + 1 + b = (a2 + b) + 1 := by omega
        calc catRows f s (a2 + 1 + b) = f s ++ catRows f (s + 1) (a2 + b) := by
              rw [this]; rfl
          _ = f s ++ (catRows f (s + 1) a2 ++ catRows f (s + 1 + a2) b) := by rw [iha]
          _ = (f s ++ catRows f (s + 1) a2) ++ catRows f (s + (a2 + 1)) b := by
              rw [List.append_assoc]; ring_nf
          _ = catRows f s (a2 + 1) ++ catRows f (s + (a2 + 1)) b := rfl
    calc flatRows (chunkBatches f (m + 1))
        = flatRows (chunkBatches f m) ++ flatRows [catRows f (10 * m) 10] := by
          simp [chunkBatches, flatRows_append]
      _ = catRows f 0 (10 * m) ++ catRows f (10 * m) 10 := by
          simp [ih, flatRows]
      _ = catRows f 0 (10 * m + 10) := by
          rw [hsplit (10 * m) 10 0]; simp
      _ = catRows f 0 (10 * (m + 1)) := by rw [h10]

/-- State of the loop after k successful canonical iterations, started from
iteration 0: all rows so far counted, the rows since the last flush pending,
and one committed batch per completed group of 10 iterations. -/
def goodState (env : Env) (k : Nat) : LoopState :=
  ⟨3 * k, catRows (iterRowsG env) (10 * (k / 10)) (k % 10),
   chunkBatches (iterRowsG env) (k / 10), k, k⟩

theorem runIter_good (env : Env) (i : Nat) (st : LoopState)
    (hL : env.jsonLoads = gLoads) (hg : env.genRaw i = some "GENENV")
    (hp : env.parseRaw i = some "PARSEENV") :
    runIter env i st =
      (if (i + 1) % 10 = 0 then
        ⟨st.totalInserted + 3, [], st.batches ++ [st.pending ++ iterRowsG env i],
         st.genCalls + 1, st.parseCalls + 1⟩
       else
        ⟨st.totalInserted + 3, st.pending ++ iterRowsG env i, st.batches,
         st.genCalls + 1, st.parseCalls + 1⟩, none) := by
  obtain ⟨jl, jd, gr, pr, uu, nw, ck⟩ := env
  obtain ⟨tot, pend, bat, gc, pc⟩ := st
  have hL2 : jl = gLoads := hL
  subst hL2
  have hg2 : gr i = some "GENENV" := hg
  have hp2 : pr i = some "PARSEENV" := hp
  have hGen : getGeneratorAnswer ⟨gLoads, jd, gr, pr, uu, nw, ck⟩ (some "GENENV") =
      .ok "Dish A; Dish B; Dish C" := rfl
  have hPar : parseAnswer ⟨gLoads, jd, gr, pr, uu, nw, ck⟩ (some "PARSEENV") =
      .ok goodParsed := rfl
  have hItem : pyItem goodParsed "favorite_foods" = .ok (.arr [goodFood, goodFood, goodFood]) := rfl
  have hRow : rowOfFood (uu i) nw goodFood =
      .ok ⟨uu i, "Pizza", .arr [.str "dough"], .str "normal", nw⟩ := rfl
  have hAdd : ∀ p t, addFoods (uu i) nw [goodFood, goodFood, goodFood] p t =
      (p ++ iterRowsG ⟨gLoads, jd, gr, pr, uu, nw, ck⟩ i, t + 3, none) := by
    intro p t
    simp [addFoods, hRow, iterRowsG, List.replicate, List.append_assoc]
  simp only [runIter, hg2, hp2, hGen, hPar, hItem, hAdd]
  by_cases hmod : (i + 1) % 10 = 0
  · simp only [hmod, if_pos rfl]
    have hne : (pend ++ iterRowsG ⟨gLoads, jd, gr, pr, uu, nw, ck⟩ i).isEmpty = false := by
      simp [iterRowsG, List.replicate]
    simp [hne]
  · simp [hmod]

theorem runLoop_add (env : Env) :
    ∀ m n i st, runLoop env i (m + n) st =
      (match runLoop env i m st with
       | (st2, none) => runLoop env (i + m) n st2
       | (st2, some e) => (st2, some e)) := by
  intro m
  induction m with
  | zero => intro n i st; simp [runLoop]
  | succ m2 ih =>
    intro n i st
    have hadd : m2 + 1 + n = (m2 + n) + 1 := by omega
    rw [hadd]
    show (match runIter env i st with
          | (st2, some e) => (st2, some e)
          | (st2, none) => runLoop env (i + 1) (m2 + n) st2) = _
    cases h : runIter env i st with
    | mk st2 oe =>
      cases oe with
      | none =>
        simp only []
        rw [ih]
        show (match runLoop env (i + 1) m2 st2 with
              | (st3, none) => runLoop env (i + 1 + m2) n st3
              | (st3, some e) => (st3, some e)) = _
        have : runLoop env i (m2 + 1) st =
            (match runIter env i st with
             | (st2, some e) => (st2, some e)
             | (st2, none) => runLoop env (i + 1) m2 st2) := rfl
        rw [this, h]
        simp only []
        have hidx : i + 1 + m2 = i + (m2 + 1) := by omega
        rw [hidx]
      | some e =>
        simp only []
        have : runLoop env i (m2 + 1) st =
            (match runIter env i st with
             | (st2, some e) => (st2, some e)
             | (st2, none) => runLoop env (i + 1) m2 st2) := rfl
        rw [this, h]

theorem runLoop_good (env : Env) (hL : env.jsonLoads = gLoads) :
    ∀ n k, (∀ i, k ≤ i → i < k + n →
        env.genRaw i = some "GENENV" ∧ env.parseRaw i = some "PARSEENV") →
      runLoop env k n (goodState env k) = (goodState env (k + n), none) := by
  intro n
  induction n with
  | zero => intro k _; simp [runLoop]
  | succ m ih =>
    intro k hgood
    have hk := hgood k (Nat.le_refl k) (by omega)
    have hstep := runIter_good env k (goodState env k) hL hk.1 hk.2
    have hdm : 10 * (k / 10) + k % 10 = k := Nat.div_add_mod k 10
    have hstep2 : runIter env k (goodState env k) = (goodState env (k + 1), none) := by
      rw [hstep]
      by_cases hmod : (k + 1) % 10 = 0
      · rw [if_pos hmod]
        have h9 : k % 10 = 9 := by omega
        have hdiv : (k + 1) / 10 = k / 10 + 1 := by omega
        have e2 : iterRowsG env k = iterRowsG env (10 * (k / 10) + 9) := by
          congr 1
          omega
        have hcat : catRows (iterRowsG env) (10 * (k / 10)) (k % 10) ++ iterRowsG env k =
            catRows (iterRowsG env) (10 * (k / 10)) 10 := by
          rw [h9, e2, ← catRows_concat (iterRowsG env) 9 (10 * (k / 10))]
        have hA : ((⟨(goodState env k).totalInserted + 3, [],
            (goodState env k).batches ++ [(goodState env k).pending ++ iterRowsG env k],
            (goodState env k).genCalls + 1, (goodState env k).parseCalls + 1⟩ : LoopState)) =
            goodState env (k + 1) := by
          simp only [goodState]
          rw [hcat]
          simp only [hdiv, hmod]
          have h3 : 3 * k + 3 = 3 * (k + 1) := by ring
          rw [h3]
          rfl
        rw [hA]
      · rw [if_neg hmod]
        have hdiv : (k + 1) / 10 = k / 10 := by omega
        have hmod2 : (k + 1) % 10 = k % 10 + 1 := by omega
        have e2 : iterRowsG env k = iterRowsG env (10 * (k / 10) + k % 10) := by
          congr 1
          omega
        have hB : ((⟨(goodState env k).totalInserted + 3,
            (goodState env k).pending ++ iterRowsG env k, (goodState env k).batches,
            (goodState env k).genCalls + 1, (goodState env k).parseCalls + 1⟩ : LoopState)) =
            goodState env (k + 1) := by
          simp only [goodState]
          rw [e2, ← catRows_concat (iterRowsG env) (k % 10) (10 * (k / 10))]
          simp only [hdiv, hmod2]
          have h3 : 3 * k + 3 = 3 * (k + 1) := by ring
          rw [h3]
        rw [hB]
    show (match runIter env k (goodState env k) with
          | (st2, some e) => (st2, some e)
          | (st2, none) => runLoop env (k + 1) m st2) = _
    rw [hstep2]
    show runLoop env (k + 1) m (goodState env (k + 1)) = _
    have := ih (k + 1) (by intro i h1 h2; exact hgood i (by omega) (by omega))
    rw [this]
    have hadd : k + 1 + m = k + (m + 1) := by omega
    rw [hadd]

theorem isEmpty_false_of_length {l : List Row} (h : l.length ≠ 0) : l.isEmpty = false := by
  cases l with
  | nil => simp at h
  | cons a t => rfl

/-- The batches committed by a complete canonical run of r iterations: one
batch per full group of 10 iterations, then the final flush of the residue
when there is one. -/
def goodBatchesEnv (env : Env) (r : Nat) : List (List Row) :=
  chunkBatches (iterRowsG env) (r / 10) ++
    (if r % 10 = 0 then []
     else [catRows (iterRowsG env) (10 * (r / 10)) (r % 10)])

theorem orchHandler_goodEnv (r : Nat) (hr : 0 < r) :
    orchHandler goodEnv (.obj [("runs", .num (r : Int))]) =
      (⟨200, .obj [("ok", .bool true), ("runs", .num (r : Int)),
                   ("inserted_rows", .num ((3 * r : Nat) : Int))]⟩,
       ⟨true, r, r, goodBatchesEnv goodEnv r⟩) := by
  have hOr : pyOr (.num (r : Int)) (.num 0) = .num (r : Int) := by
    simp [pyOr, pyTruthy]
    omega
  have hle : ¬((r : Int) ≤ 0) := by omega
  have htn : (r : Int).toNat = r := Int.toNat_natCast r
  have hLoop : runLoop goodEnv 0 r (⟨0, [], [], 0, 0⟩ : LoopState) =
      (goodState goodEnv r, none) := by
    have h0 : (⟨0, [], [], 0, 0⟩ : LoopState) = goodState goodEnv 0 := rfl
    rw [h0]
    have := runLoop_good goodEnv rfl r 0 (by intro i _ _; exact ⟨rfl, rfl⟩)
    simpa using this
  have h1 : parseRawEvent goodEnv (.obj [("runs", .num (r : Int))]) =
      .ok (.obj [("runs", .num (r : Int))]) := rfl
  have h2 : pyGet (.obj [("runs", .num (r : Int))]) "runs" = .ok (.num (r : Int)) := rfl
  have h3 : pyIntE (.num (r : Int)) = .ok (r : Int) := rfl
  have h4 : pyGet (.obj [("runs", .num (r : Int))]) "question" = .ok .null := rfl
  simp only [orchHandler, h1, h2, hOr, h3, h4]
  rw [if_neg hle]
  rw [if_pos (show goodEnv.connectOk = true from rfl)]
  simp only [htn, hLoop]
  by_cases hm : r % 10 = 0
  · have hpe : (goodState goodEnv r).pending.isEmpty = true := by
      simp only [goodState, hm, catRows]
      rfl
    simp only [hpe, if_pos rfl]
    simp only [goodState, goodBatchesEnv, hm, if_pos rfl]
    simp
  · have hpe : (goodState goodEnv r).pending.isEmpty = false := by
      apply isEmpty_false_of_length
      simp only [goodState]
      rw [length_catRows]
      omega
    simp only [hpe]
    simp only [goodState, goodBatchesEnv, hm]
    simp

/-- Iteration i experiences no collaborator or shape failure: the generator
call returns text, the parser call returns a validated body whose
favorite_foods list has exactly 3 entries, and each entry builds a row
without raising. -/
def healthyIter (env : Env) (i : Nat) : Prop :=
  (∃ a, getGeneratorAnswer env (env.genRaw i) = .ok a) ∧
  (∃ body xs, parseAnswer env (env.parseRaw i) = .ok body ∧
    pyItem body "favorite_foods" = .ok (.arr xs) ∧ xs.length = 3 ∧
    ∀ f ∈ xs, ∃ row, rowOfFood (env.uuid i) env.now f = .ok row)

theorem addFoods_ok (uid : String) (now : Nat) :
    ∀ foods pend tot, (∀ f ∈ foods, ∃ row, rowOfFood uid now f = .ok row) →
      ∃ rows, addFoods uid now foods pend tot = (pend ++ rows, tot + rows.length, none) ∧
        rows.length = foods.length := by
  intro foods
  induction foods with
  | nil =>
    intro pend tot _
    refine ⟨[], ?_, rfl⟩
    simp [addFoods]
  | cons f fs ih =>
    intro pend tot hall
    obtain ⟨row, hrow⟩ := hall f (by simp)
    obtain ⟨rows, heq, hlen⟩ := ih (pend ++ [row]) (tot + 1) (fun g hg => hall g (by simp [hg]))
    refine ⟨row :: rows, ?_, by simp [hlen]⟩
    have hunf : addFoods uid now (f :: fs) pend tot =
        addFoods uid now fs (pend ++ [row]) (tot + 1) := by
      simp [addFoods, hrow]
    rw [hunf, heq]
    have hlist : pend ++ [row] ++ rows = pend ++ row :: rows := by simp
    have hnat : tot + 1 + rows.length = tot + (row :: rows).length := by
      simp only [List.length_cons]
      omega
    rw [hlist, hnat]

theorem runLoop_count (env : Env) :
    ∀ n k st, (∀ i, k ≤ i → i < k + n → healthyIter env i) →
      st.pending.length = 3 * (k % 10) →
      st.batches.length = k / 10 →
      ∃ st2, runLoop env k n st = (st2, none) ∧
        st2.totalInserted = st.totalInserted + 3 * n ∧
        st2.pending.length = 3 * ((k + n) % 10) ∧
        st2.batches.length = (k + n) / 10 ∧
        st2.genCalls = st.genCalls + n ∧
        st2.parseCalls = st.parseCalls + n := by
  intro n
  induction n with
  | zero =>
    intro k st _ hp hb
    exact ⟨st, rfl, by omega, by simpa using hp, by simpa using hb, by omega, by omega⟩
  | succ m ih =>
    intro k st hh hp hb
    obtain ⟨⟨a, ha⟩, body, xs, hpa, hitem, hlen3, hrows⟩ := hh k (Nat.le_refl k) (by omega)
    obtain ⟨tot, pend, bats, gc, pc⟩ := st
    simp only at hp hb
    obtain ⟨rows, haf, hlenr⟩ := addFoods_ok (env.uuid k) env.now xs pend tot hrows
    have hstep : runIter env k ⟨tot, pend, bats, gc, pc⟩ =
        (if (k + 1) % 10 = 0 then
          ((if (pend ++ rows).isEmpty then
            (⟨tot + rows.length, pend ++ rows, bats, gc + 1, pc + 1⟩ : LoopState)
           else ⟨tot + rows.length, [], bats ++ [pend ++ rows], gc + 1, pc + 1⟩), none)
         else (⟨tot + rows.length, pend ++ rows, bats, gc + 1, pc + 1⟩, none)) := by
      simp only [runIter, ha, hpa, hitem, haf]
    have hlenpr : (pend ++ rows).length = 3 * (k % 10) + 3 := by
      simp [hp, hlenr, hlen3]
    by_cases hmod : (k + 1) % 10 = 0
    · have h9 : k % 10 = 9 := by omega
      have hpe : (pend ++ rows).isEmpty = false := by
        apply isEmpty_false_of_length
        omega
      have hstep2 : runIter env k ⟨tot, pend, bats, gc, pc⟩ =
          ((⟨tot + rows.length, [], bats ++ [pend ++ rows], gc + 1, pc + 1⟩ : LoopState), none) := by
        rw [hstep, if_pos hmod, hpe]
        simp
      obtain ⟨st2, hrun, h1, h2, h3, h4, h5⟩ :=
        ih (k + 1) ⟨tot + rows.length, [], bats ++ [pend ++ rows], gc + 1, pc + 1⟩
          (by intro i hi1 hi2; exact hh i (by omega) (by omega))
          (by simp [hmod]) (by simp; omega)
      refine ⟨st2, ?_, ?_, ?_, ?_, ?_, ?_⟩
      · show (match runIter env k ⟨tot, pend, bats, gc, pc⟩ with
              | (st2, some e) => (st2, some e)
              | (st2, none) => runLoop env (k + 1) m st2) = (st2, none)
        rw [hstep2]
        exact hrun
      · show st2.totalInserted = tot + 3 * (m + 1)
        simp at h1
        omega
      · show st2.pending.length = 3 * ((k + (m + 1)) % 10)
        have hsh : k + 1 + m = k + (m + 1) := by omega
        rw [← hsh]
        exact h2
      · show st2.batches.length = (k + (m + 1)) / 10
        have hsh : k + 1 + m = k + (m + 1) := by omega
        rw [← hsh]
        exact h3
      · show st2.genCalls = gc + (m + 1)
        simp at h4
        omega
      · show st2.parseCalls = pc + (m + 1)
        simp at h5
        omega
    · have hstep2 : runIter env k ⟨tot, pend, bats, gc, pc⟩ =
          ((⟨tot + rows.length, pend ++ rows, bats, gc + 1, pc + 1⟩ : LoopState), none) := by
        rw [hstep, if_neg hmod]
      obtain ⟨st2, hrun, h1, h2, h3, h4, h5⟩ :=
        ih (k + 1) ⟨tot + rows.length, pend ++ rows, bats, gc + 1, pc + 1⟩
          (by intro i hi1 hi2; exact hh i (by omega) (by omega))
          (by simp only []; omega) (by simp only []; omega)
      refine ⟨st2, ?_, ?_, ?_, ?_, ?_, ?_⟩
      · show (match runIter env k ⟨tot, pend, bats, gc, pc⟩ with
              | (st2, some e) => (st2, some e)
              | (st2, none) => runLoop env (k + 1) m st2) = (st2, none)
        rw [hstep2]
        exact hrun
      · show st2.totalInserted = tot + 3 * (m + 1)
        simp at h1
        omega
      · show st2.pending.length = 3 * ((k + (m + 1)) % 10)
        have hsh : k + 1 + m = k + (m + 1) := by omega
        rw [← hsh]
        exact h2
      · show st2.batches.length = (k + (m + 1)) / 10
        have hsh : k + 1 + m = k + (m + 1) := by omega
        rw [← hsh]
        exact h3
      · show st2.genCalls = gc + (m + 1)
        simp at h4
        omega
      · show st2.parseCalls = pc + (m + 1)
        simp at h5
        omega

end FoodAdvice


namespace FoodAdvice

/-
Claim theorems. Each claim of the specification gets exactly one theorem,
with witnesses for the hypothesised ones and counterexamples where the claim
fails on the code.
-/

/-- C7: invoke fails with a decode error when the envelope payload does not
decode; fails carrying status and body, without retrying, when the truthy
status converts to an integer of at least 400; otherwise a string body is
replaced by its nested decode when that succeeds and returned raw when it
fails, and a non-string body is returned as is. The embedding performs the
single synchronous call by construction, so no retry exists to model. -/
theorem claim_C7_invoke_contract :
    (∀ (env : Env) (raw : String), env.jsonLoads raw = none →
      invokeLambda env (some raw) = .error (.jsonDecode raw)) ∧
    (∀ (env : Env) (raw : String) (fs : List (String × JVal)) (n : Int),
      env.jsonLoads raw = some (.obj fs) → pyTruthy (statusOf fs) = true →
      pyIntE (statusOf fs) = .ok n → 400 ≤ n →
      invokeLambda env (some raw) = .error (.upstream n (bodyOf fs))) ∧
    (∀ (env : Env) (raw : String) (fs : List (String × JVal)),
      env.jsonLoads raw = some (.obj fs) → pyTruthy (statusOf fs) = false →
      invokeLambda env (some raw) = .ok (unwrapBody env (bodyOf fs))) ∧
    (∀ (env : Env) (raw : String) (fs : List (String × JVal)) (n : Int),
      env.jsonLoads raw = some (.obj fs) → pyIntE (statusOf fs) = .ok n → n < 400 →
      invokeLambda env (some raw) = .ok (unwrapBody env (bodyOf fs))) ∧
    (∀ (env : Env) (s : String) (v : JVal), env.jsonLoads s = some v →
      unwrapBody env (.str s) = v) ∧
    (∀ (env : Env) (s : String), env.jsonLoads s = none →
      unwrapBody env (.str s) = .str s) ∧
    (∀ (env : Env) (b : JVal), (∀ s, b ≠ .str s) → unwrapBody env b = b) := by
  refine ⟨?_, ?_, ?_, ?_, ?_, ?_, ?_⟩
  · intro env raw h
    simp [invokeLambda, h]
  · intro env raw fs n h ht hn h400
    simp [invokeLambda, h, ht, hn, h400]
  · intro env raw fs h ht
    simp [invokeLambda, h, ht]
  · intro env raw fs n h hn hlt
    have h4 : ¬ (400 ≤ n) := by omega
    by_cases ht : pyTruthy (statusOf fs)
    · simp [invokeLambda, h, ht, hn, h4]
    · simp [invokeLambda, h, ht]
  · intro env s v h
    simp [unwrapBody, h]
  · intro env s h
    simp [unwrapBody, h]
  · intro env b hb
    cases b with
    | str s => exact absurd rfl (hb s)
    | null => rfl
    | bool x => rfl
    | num x => rfl
    | arr xs => rfl
    | obj fs => rfl

theorem claim_C7_invoke_contract_witness :
    gLoads "NOPE" = none ∧
    invokeLambda goodEnv (some "NOPE") = .error (.jsonDecode "NOPE") ∧
    invokeLambda goodEnv (some "BADPARSE") = .error (.upstream 500 (.str "boom")) ∧
    invokeLambda goodEnv (some "NOSTATUS") =
      .ok (unwrapBody goodEnv (.str "plain text body")) ∧
    invokeLambda goodEnv (some "GENENV") =
      .ok (unwrapBody goodEnv (.str "Dish A; Dish B; Dish C")) ∧
    unwrapBody goodEnv (.str "plain text body") = .str "plain text body" ∧
    unwrapBody goodEnv (.num 7) = .num 7 := by
  refine ⟨rfl, ?_, ?_, ?_, ?_, ?_, ?_⟩
  · exact claim_C7_invoke_contract.1 goodEnv "NOPE" rfl
  · exact claim_C7_invoke_contract.2.1 goodEnv "BADPARSE"
      [("statusCode", .num 500), ("body", .str "boom")] 500 rfl rfl rfl (by omega)
  · exact claim_C7_invoke_contract.2.2.1 goodEnv "NOSTATUS"
      [("body", .str "plain text body")] rfl rfl
  · exact claim_C7_invoke_contract.2.2.2.1 goodEnv "GENENV"
      [("statusCode", .num 200), ("body", .str "Dish A; Dish B; Dish C")] 200 rfl rfl
      (by omega)
  · exact claim_C7_invoke_contract.2.2.2.2.2.1 goodEnv "plain text body" rfl
  · exact claim_C7_invoke_contract.2.2.2.2.2.2 goodEnv (.num 7) (fun s h => JVal.noConfusion h)

/-- C9 counterexample: a truthy statusCode that does not convert to an
integer, here the string oops, raises a conversion error even though it is
not a status of at least 400, refuting the claim that only envelopes with a
truthy status of at least 400 produce an error. -/
theorem claim_C9_counterexample :
    invokeLambda goodEnv (some "BADSTATUS") = .error (.valueError "invalid literal for int") ∧
    gLoads "BADSTATUS" =
      some (.obj [("statusCode", .str "oops"), ("body", .str "x")]) ∧
    pyIntE (.str "oops") = .error (.valueError "invalid literal for int") :=
  ⟨rfl, rfl, rfl⟩

/-- C9 amended: an envelope object whose statusCode is absent, null, 0, or
otherwise falsy is treated as a success and its body is unwrapped; a truthy
integer-convertible status errors only when at least 400; but a truthy
status that fails integer conversion raises that conversion error, so the
claim's word only does not hold of the 400 threshold alone. -/
theorem claim_C9_amended_falsy_status_success :
    (∀ (env : Env) (raw : String) (fs : List (String × JVal)),
      env.jsonLoads raw = some (.obj fs) → pyTruthy (statusOf fs) = false →
      invokeLambda env (some raw) = .ok (unwrapBody env (bodyOf fs))) ∧
    (∀ (env : Env) (raw : String) (fs : List (String × JVal)) (e : PyErr),
      env.jsonLoads raw = some (.obj fs) → pyTruthy (statusOf fs) = true →
      pyIntE (statusOf fs) = .error e →
      invokeLambda env (some raw) = .error e) ∧
    (∀ fs, jLookup "statusCode" fs = none → statusOf fs = .null) ∧
    pyTruthy .null = false ∧
    pyTruthy (.num 0) = false := by
  refine ⟨?_, ?_, ?_, rfl, rfl⟩
  · intro env raw fs h ht
    simp [invokeLambda, h, ht]
  · intro env raw fs e h ht he
    simp [invokeLambda, h, ht, he]
  · intro fs h
    simp [statusOf, h]

theorem claim_C9_amended_falsy_status_success_witness :
    invokeLambda goodEnv (some "NOSTATUS") =
      .ok (unwrapBody goodEnv (.str "plain text body")) ∧
    invokeLambda goodEnv (some "BADSTATUS") =
      .error (.valueError "invalid literal for int") ∧
    statusOf [("body", .str "plain text body")] = .null := by
  refine ⟨?_, ?_, ?_⟩
  · exact claim_C9_amended_falsy_status_success.1 goodEnv "NOSTATUS"
      [("body", .str "plain text body")] rfl rfl
  · exact claim_C9_amended_falsy_status_success.2.1 goodEnv "BADSTATUS"
      [("statusCode", .str "oops"), ("body", .str "x")]
      (.valueError "invalid literal for int") rfl rfl rfl
  · exact claim_C9_amended_falsy_status_success.2.2.1 [("body", .str "plain text body")] rfl

end FoodAdvice

namespace FoodAdvice

/-- C5 counterexample: the parser proxy accepts a result whose three entries
are empty objects, lacking name, possible_ingredients and diet alike, and
returns it unchanged; the claim that parse fails unless every entry carries
those fully shaped fields is therefore false. -/
theorem claim_C5_counterexample :
    parseAnswer emptyFoodsEnv (some "EMPTYFOODS") = .ok emptyFoodsParsed ∧
    jvLookup emptyFoodsParsed "favorite_foods" = some (.arr [.obj [], .obj [], .obj []]) :=
  ⟨rfl, rfl⟩

/-- C5 amended: parse fails with an unexpected-format error carrying the raw
payload unless the result decodes to an object whose favorite_foods entry is
a sequence of exactly 3 elements; only such a result is returned, unchanged;
the individual entries are not validated here. -/
theorem claim_C5_amended_parse_shape_only :
    (∀ body : JVal, (∃ v, validateFoods body = .ok v) ↔
      (∃ fs xs, body = .obj fs ∧ jLookup "favorite_foods" fs = some (.arr xs) ∧
        xs.length = 3)) ∧
    (∀ body v, validateFoods body = .ok v → v = body) ∧
    (∀ (env : Env) (raw : Option String) (s : String),
      invokeLambda env raw = .ok (.str s) → env.jsonLoads s = none →
      parseAnswer env raw =
        .error (.runtimeError ("Parser returned unexpected text: " ++ s))) ∧
    (∀ (env : Env) (raw : Option String) (body : JVal),
      invokeLambda env raw = .ok body → nestedDecodeOrFail env body = .ok body →
      parseAnswer env raw = validateFoods body) := by
  refine ⟨?_, ?_, ?_, ?_⟩
  · intro body
    constructor
    · intro ⟨v, hv⟩
      cases body with
      | obj fs =>
        cases hlk : jLookup "favorite_foods" fs with
        | none =>
          simp [validateFoods, pyGet, hlk] at hv
        | some foods =>
          cases foods with
          | arr xs =>
            by_cases hlen : xs.length = 3
            · exact ⟨fs, xs, rfl, hlk, hlen⟩
            · simp [validateFoods, pyGet, hlk, hlen] at hv
          | null => simp [validateFoods, pyGet, hlk] at hv
          | bool x => simp [validateFoods, pyGet, hlk] at hv
          | num x => simp [validateFoods, pyGet, hlk] at hv
          | str x => simp [validateFoods, pyGet, hlk] at hv
          | obj x => simp [validateFoods, pyGet, hlk] at hv
      | null => simp [validateFoods, pyGet] at hv
      | bool x => simp [validateFoods, pyGet] at hv
      | num x => simp [validateFoods, pyGet] at hv
      | str x => simp [validateFoods, pyGet] at hv
      | arr x => simp [validateFoods, pyGet] at hv
    · intro ⟨fs, xs, hfs, hlk, hlen⟩
      subst hfs
      exact ⟨.obj fs, by simp [validateFoods, pyGet, hlk, hlen]⟩
  · intro body v hv
    cases body with
    | obj fs =>
      cases hlk : jLookup "favorite_foods" fs with
      | none => simp [validateFoods, pyGet, hlk] at hv
      | some foods =>
        cases foods with
        | arr xs =>
          by_cases hlen : xs.length = 3
          · simp [validateFoods, pyGet, hlk, hlen] at hv
            exact hv.symm
          · simp [validateFoods, pyGet, hlk, hlen] at hv
        | null => simp [validateFoods, pyGet, hlk] at hv
        | bool x => simp [validateFoods, pyGet, hlk] at hv
        | num x => simp [validateFoods, pyGet, hlk] at hv
        | str x => simp [validateFoods, pyGet, hlk] at hv
        | obj x => simp [validateFoods, pyGet, hlk] at hv
    | null => simp [validateFoods, pyGet] at hv
    | bool x => simp [validateFoods, pyGet] at hv
    | num x => simp [validateFoods, pyGet] at hv
    | str x => simp [validateFoods, pyGet] at hv
    | arr x => simp [validateFoods, pyGet] at hv
  · intro env raw s hinv hdec
    simp [parseAnswer, hinv, nestedDecodeOrFail, hdec]
  · intro env raw body hinv hdec
    simp [parseAnswer, hinv, hdec]

theorem claim_C5_amended_parse_shape_only_witness :
    (∃ v, validateFoods goodParsed = .ok v) ∧
    validateFoods goodParsed = .ok goodParsed ∧
    parseAnswer goodEnv (some "NOSTATUS") =
      .error (.runtimeError ("Parser returned unexpected text: " ++ "plain text body")) ∧
    parseAnswer emptyFoodsEnv (some "EMPTYFOODS") = validateFoods emptyFoodsParsed := by
  refine ⟨?_, ?_, ?_, ?_⟩
  · exact (claim_C5_amended_parse_shape_only.1 goodParsed).mpr
      ⟨[("favorite_foods", .arr [goodFood, goodFood, goodFood])],
       [goodFood, goodFood, goodFood], rfl, rfl, rfl⟩
  · have h := claim_C5_amended_parse_shape_only.2.1 goodParsed goodParsed
    have h2 : validateFoods goodParsed = .ok goodParsed := rfl
    exact h2
  · exact claim_C5_amended_parse_shape_only.2.2.1 goodEnv (some "NOSTATUS")
      "plain text body" rfl rfl
  · exact claim_C5_amended_parse_shape_only.2.2.2 emptyFoodsEnv (some "EMPTYFOODS")
      emptyFoodsParsed rfl rfl

/-- C10: a structured entry that lacks name, possible_ingredients and diet
does not make the driver fail; the row is persisted with the empty trimmed
name, the empty ingredient list and the diet normal, as shown both on the
row constructor and on a complete one-iteration run whose three persisted
rows all carry empty names and empty ingredient lists. -/
theorem claim_C10_missing_fields_defaulted :
    (∀ (uid : String) (now : Nat) (fs : List (String × JVal)),
      jLookup "name" fs = none → jLookup "possible_ingredients" fs = none →
      jLookup "diet" fs = none →
      rowOfFood uid now (.obj fs) = .ok ⟨uid, "", .arr [], .str "normal", now⟩) ∧
    orchHandler emptyFoodsEnv (.obj [("runs", .num 1)]) =
      (⟨200, .obj [("ok", .bool true), ("runs", .num 1), ("inserted_rows", .num 3)]⟩,
       ⟨true, 1, 1, [[⟨"user0", "", .arr [], .str "normal", 0⟩,
                      ⟨"user0", "", .arr [], .str "normal", 0⟩,
                      ⟨"user0", "", .arr [], .str "normal", 0⟩]]⟩) := by
  refine ⟨?_, rfl⟩
  intro uid now fs h1 h2 h3
  simp [rowOfFood, pyGet, pyGetD, h1, h2, h3, pyOr, pyTruthy, pyStripE, pyStripStr]

theorem claim_C10_missing_fields_defaulted_witness :
    jLookup "name" ([] : List (String × JVal)) = none ∧
    rowOfFood "u" 5 (.obj []) = .ok ⟨"u", "", .arr [], .str "normal", 5⟩ :=
  ⟨rfl, claim_C10_missing_fields_defaulted.1 "u" 5 [] rfl rfl rfl⟩

end FoodAdvice

namespace FoodAdvice

theorem catRows_add (f : Nat → List Row) :
    ∀ a b s, catRows f s (a + b) = catRows f s a ++ catRows f (s + a) b := by
  intro a
  induction a with
  | zero => intro b s; simp [catRows]
  | succ a2 iha =>
    intro b s
    have h1 : a2 + 1 + b = (a2 + b) + 1 := by omega
    calc catRows f s (a2 + 1 + b) = f s ++ catRows f (s + 1) (a2 + b) := by
          rw [h1]; rfl
      _ = f s ++ (catRows f (s + 1) a2 ++ catRows f (s + 1 + a2) b) := by rw [iha]
      _ = (f s ++ catRows f (s + 1) a2) ++ catRows f (s + (a2 + 1)) b := by
          rw [List.append_assoc]; ring_nf
      _ = catRows f s (a2 + 1) ++ catRows f (s + (a2 + 1)) b := rfl

theorem created_at_of_mem_catRows (env : Env) :
    ∀ n s row, row ∈ catRows (iterRowsG env) s n → row.created_at = env.now := by
  intro n
  induction n with
  | zero => intro s row h; simp [catRows] at h
  | succ m ih =>
    intro s row h
    simp only [catRows, List.mem_append] at h
    cases h with
    | inl h =>
      have heq : row = ⟨env.uuid s, "Pizza", .arr [.str "dough"], .str "normal", env.now⟩ := by
        simpa [iterRowsG] using h
      rw [heq]
    | inr h => exact ih (s + 1) row h

/-- C4 counterexample: a non-numeric runs value produces status 500, not the
claimed 400: the int conversion raises outside any dedicated validation. -/
theorem claim_C4_counterexample :
    (orchHandler goodEnv (.obj [("runs", .str "abc")])).1.statusCode = 500 ∧
    (orchHandler goodEnv (.obj [("runs", .str "abc")])).1.statusCode ≠ 400 :=
  ⟨rfl, by decide⟩

/-- C4 amended: a missing runs, and any falsy runs value such as 0, yield a
400 response with an error body, zero collaborator calls and no store
connection; a truthy non-numeric runs value raises during int conversion and
yields a 500 response with an error body, still with zero collaborator calls
and no side effects. -/
theorem claim_C4_amended_runs_validation :
    ∀ env : Env,
      orchHandler env (.obj []) =
        (⟨400, .obj [("error", .str "Missing or invalid runs, must be > 0")]⟩, Trace.empty) ∧
      orchHandler env (.obj [("runs", .num 0)]) =
        (⟨400, .obj [("error", .str "Missing or invalid runs, must be > 0")]⟩, Trace.empty) ∧
      (∀ s : String, strToInt s = none → s ≠ "" →
        orchHandler env (.obj [("runs", .str s)]) =
          (⟨500, .obj [("error", .str "invalid literal for int")]⟩, Trace.empty)) := by
  intro env
  refine ⟨rfl, rfl, ?_⟩
  intro s hparse hs
  have htr : pyTruthy (.str s) = true := by
    simp [pyTruthy, hs]
  have h1 : parseRawEvent env (.obj [("runs", .str s)]) = .ok (.obj [("runs", .str s)]) := rfl
  have h2 : pyGet (.obj [("runs", .str s)]) "runs" = .ok (.str s) := rfl
  have h3 : pyOr (.str s) (.num 0) = .str s := by
    simp [pyOr, htr]
  have h4 : pyIntE (.str s) = .error (.valueError "invalid literal for int") := by
    simp [pyIntE, hparse]
  simp only [orchHandler, h1, h2, h3, h4]
  rfl

theorem claim_C4_amended_runs_validation_witness :
    strToInt "abc" = none ∧ ("abc" : String) ≠ "" ∧
    orchHandler goodEnv (.obj [("runs", .str "abc")]) =
      (⟨500, .obj [("error", .str "invalid literal for int")]⟩, Trace.empty) ∧
    orchHandler goodEnv (.obj []) =
      (⟨400, .obj [("error", .str "Missing or invalid runs, must be > 0")]⟩, Trace.empty) :=
  ⟨rfl, by decide,
   (claim_C4_amended_runs_validation goodEnv).2.2 "abc" rfl (by decide),
   (claim_C4_amended_runs_validation goodEnv).1⟩

/-- C2 counterexample: on a successful two-iteration run the 200 response
body has no run_id field at all, and the only per-record identifier, the
user_id, differs between the two iterations of the same run; so no single
run identifier is shared by every record and returned in the body. -/
theorem claim_C2_counterexample :
    (orchHandler goodEnv (.obj [("runs", .num 2)])).1.statusCode = 200 ∧
    jvLookup (orchHandler goodEnv (.obj [("runs", .num 2)])).1.body "run_id" = none ∧
    ((orchHandler goodEnv (.obj [("runs", .num 2)])).2.batches.map
      (fun b => b.map Row.user_id)) =
      [["user0", "user0", "user0", "user1", "user1", "user1"]] ∧
    ("user0" : String) ≠ "user1" :=
  ⟨rfl, rfl, rfl, by decide⟩

/-- C2 amended: created_at is fixed once before the loop and shared by every
record the run writes; there is no run-level identifier: each iteration i
draws a fresh user_id shared by exactly its own three records, as the exact
row trace shows, and the success body is the object with ok, runs and
inserted_rows only, so it contains no run_id. -/
theorem claim_C2_amended_created_at_and_response :
    ∀ r : Nat, 0 < r →
      (orchHandler goodEnv (.obj [("runs", .num (r : Int))])).1 =
        ⟨200, .obj [("ok", .bool true), ("runs", .num (r : Int)),
                    ("inserted_rows", .num ((3 * r : Nat) : Int))]⟩ ∧
      jvLookup (orchHandler goodEnv (.obj [("runs", .num (r : Int))])).1.body "run_id" =
        none ∧
      flatRows (orchHandler goodEnv (.obj [("runs", .num (r : Int))])).2.batches =
        catRows (iterRowsG goodEnv) 0 r ∧
      (∀ row ∈ flatRows (orchHandler goodEnv (.obj [("runs", .num (r : Int))])).2.batches,
        row.created_at = goodEnv.now) := by
  intro r hr
  have hmain := orchHandler_goodEnv r hr
  have hflat : flatRows (goodBatchesEnv goodEnv r) = catRows (iterRowsG goodEnv) 0 r := by
    by_cases hm : r % 10 = 0
    · have h10 : 10 * (r / 10) = r := by omega
      simp only [goodBatchesEnv, hm, if_pos rfl]
      rw [flatRows_append, flatRows_chunkBatches, h10]
      simp [flatRows]
    · simp only [goodBatchesEnv]
      rw [if_neg hm, flatRows_append, flatRows_chunkBatches]
      have hsing : flatRows [catRows (iterRowsG goodEnv) (10 * (r / 10)) (r % 10)] =
          catRows (iterRowsG goodEnv) (10 * (r / 10)) (r % 10) := by
        simp [flatRows]
      rw [hsing]
      have h1 : 10 * (r / 10) + r % 10 = r := by omega
      conv_rhs => rw [← h1]
      simpa using (catRows_add (iterRowsG goodEnv) (10 * (r / 10)) (r % 10) 0).symm
  refine ⟨?_, ?_, ?_, ?_⟩
  · rw [hmain]
  · rw [hmain]
    rfl
  · rw [hmain]
    exact hflat
  · intro row hrow
    rw [hmain] at hrow
    have hrow2 : row ∈ catRows (iterRowsG goodEnv) 0 r := by
      rw [← hflat]
      exact hrow
    exact created_at_of_mem_catRows goodEnv r 0 row hrow2

theorem claim_C2_amended_created_at_and_response_witness :
    0 < 2 ∧
    ((orchHandler goodEnv (.obj [("runs", .num ((2 : Nat) : Int))])).1 =
      ⟨200, .obj [("ok", .bool true), ("runs", .num ((2 : Nat) : Int)),
                  ("inserted_rows", .num ((3 * 2 : Nat) : Int))]⟩ ∧
     jvLookup (orchHandler goodEnv (.obj [("runs", .num ((2 : Nat) : Int))])).1.body
       "run_id" = none ∧
     flatRows (orchHandler goodEnv (.obj [("runs", .num ((2 : Nat) : Int))])).2.batches =
       catRows (iterRowsG goodEnv) 0 2 ∧
     (∀ row ∈ flatRows
        (orchHandler goodEnv (.obj [("runs", .num ((2 : Nat) : Int))])).2.batches,
        row.created_at = goodEnv.now)) :=
  ⟨by decide, claim_C2_amended_created_at_and_response 2 (by decide)⟩

end FoodAdvice

namespace FoodAdvice

theorem healthyIter_goodEnv : ∀ i, healthyIter goodEnv i := by
  intro i
  refine ⟨⟨"Dish A; Dish B; Dish C", rfl⟩,
    goodParsed, [goodFood, goodFood, goodFood], rfl, rfl, rfl, ?_⟩
  intro f hf
  have hfe : f = goodFood := by
    simpa using hf
  rw [hfe]
  exact ⟨⟨goodEnv.uuid i, "Pizza", .arr [.str "dough"], .str "normal", goodEnv.now⟩, rfl⟩

/-- C3: for every environment in which the store connects and every
iteration is failure free, a run of r iterations returns 200, reports
inserted_rows equal to 3 times r, and commits exactly ceiling of r over 10
batches; and on the canonical run with r equal to 25, the three flushes hold
30, 30 and 15 rows: two full batches after iterations 10 and 20 and one
final flush of the remaining 15 records, with no partial or duplicate
flush. -/
theorem claim_C3_inserted_rows_and_flush_count :
    (∀ (env : Env) (r : Nat), 0 < r → env.connectOk = true →
      (∀ i, i < r → healthyIter env i) →
      (orchHandler env (.obj [("runs", .num (r : Int))])).1.statusCode = 200 ∧
      jvLookup (orchHandler env (.obj [("runs", .num (r : Int))])).1.body
        "inserted_rows" = some (.num ((3 * r : Nat) : Int)) ∧
      (orchHandler env (.obj [("runs", .num (r : Int))])).2.batches.length =
        (r + 9) / 10) ∧
    ((orchHandler goodEnv (.obj [("runs", .num 25)])).2.batches.map List.length =
      [30, 30, 15] ∧
     (orchHandler goodEnv (.obj [("runs", .num 25)])).2.batches.length = 3) := by
  constructor
  · intro env r hr hc hh
    have hOr : pyOr (.num (r : Int)) (.num 0) = .num (r : Int) := by
      simp [pyOr, pyTruthy]
      omega
    have hle : ¬((r : Int) ≤ 0) := by omega
    have htn : (r : Int).toNat = r := Int.toNat_natCast r
    have h1 : parseRawEvent env (.obj [("runs", .num (r : Int))]) =
        .ok (.obj [("runs", .num (r : Int))]) := rfl
    have h2 : pyGet (.obj [("runs", .num (r : Int))]) "runs" = .ok (.num (r : Int)) := rfl
    have h3 : pyIntE (.num (r : Int)) = .ok (r : Int) := rfl
    have h4 : pyGet (.obj [("runs", .num (r : Int))]) "question" = .ok .null := rfl
    obtain ⟨st2, hrun, hA1, hA2, hA3, hA4, hA5⟩ :=
      runLoop_count env r 0 ⟨0, [], [], 0, 0⟩
        (by intro i _ hi2; exact hh i (by omega)) (by simp) (by simp)
    simp only at hA1 hA2 hA3 hA4 hA5
    by_cases hm : r % 10 = 0
    · have hnil : st2.pending = [] := by
        have : st2.pending.length = 0 := by omega
        exact List.length_eq_zero.mp this
      have hpe : st2.pending.isEmpty = true := by
        rw [hnil]
        rfl
      have hout : orchHandler env (.obj [("runs", .num (r : Int))]) =
          (⟨200, .obj [("ok", .bool true), ("runs", .num (r : Int)),
                       ("inserted_rows", .num (st2.totalInserted : Int))]⟩,
           ⟨true, st2.genCalls, st2.parseCalls, st2.batches⟩) := by
        simp only [orchHandler, h1, h2, hOr, h3, h4]
        rw [if_neg hle]
        rw [if_pos hc]
        simp only [htn, hrun]
        rw [if_pos hpe]
      refine ⟨by rw [hout], ?_, ?_⟩
      · rw [hout]
        show some (JVal.num (st2.totalInserted : Int)) =
          some (JVal.num ((3 * r : Nat) : Int))
        rw [show st2.totalInserted = 3 * r by omega]
      · rw [hout]
        show st2.batches.length = (r + 9) / 10
        omega
    · have hpe : st2.pending.isEmpty = false := by
        apply isEmpty_false_of_length
        omega
      have hout : orchHandler env (.obj [("runs", .num (r : Int))]) =
          (⟨200, .obj [("ok", .bool true), ("runs", .num (r : Int)),
                       ("inserted_rows", .num (st2.totalInserted : Int))]⟩,
           ⟨true, st2.genCalls, st2.parseCalls, st2.batches ++ [st2.pending]⟩) := by
        simp only [orchHandler, h1, h2, hOr, h3, h4]
        rw [if_neg hle]
        rw [if_pos hc]
        simp only [htn, hrun]
        rw [if_neg (by simp [hpe])]
      refine ⟨by rw [hout], ?_, ?_⟩
      · rw [hout]
        show some (JVal.num (st2.totalInserted : Int)) =
          some (JVal.num ((3 * r : Nat) : Int))
        rw [show st2.totalInserted = 3 * r by omega]
      · rw [hout]
        show (st2.batches ++ [st2.pending]).length = (r + 9) / 10
        rw [List.length_append]
        simp only [List.length_singleton]
        omega
  · exact ⟨rfl, rfl⟩

theorem claim_C3_inserted_rows_and_flush_count_witness :
    0 < 25 ∧ goodEnv.connectOk = true ∧
    ((orchHandler goodEnv (.obj [("runs", .num ((25 : Nat) : Int))])).1.statusCode = 200 ∧
     jvLookup (orchHandler goodEnv (.obj [("runs", .num ((25 : Nat) : Int))])).1.body
       "inserted_rows" = some (.num ((3 * 25 : Nat) : Int)) ∧
     (orchHandler goodEnv (.obj [("runs", .num ((25 : Nat) : Int))])).2.batches.length =
       (25 + 9) / 10) :=
  ⟨by decide, rfl,
   claim_C3_inserted_rows_and_flush_count.1 goodEnv 25 (by decide) rfl
     (fun i _ => healthyIter_goodEnv i)⟩

end FoodAdvice

namespace FoodAdvice

/-- Plumbing lemma: when the first k iterations are canonical and iteration
k raises e, the handler returns the 500 error response and the trace frozen
at the failure point: committed batches stay, the pending buffer is never
flushed. -/
theorem orchHandler_fail_at (env : Env) (k r : Nat) (hkr : k < r)
    (hL : env.jsonLoads = gLoads) (hck : env.connectOk = true)
    (hgoods : ∀ i, i < k → env.genRaw i = some "GENENV" ∧ env.parseRaw i = some "PARSEENV")
    (e : PyErr) (stF : LoopState)
    (hIter : runIter env k (goodState env k) = (stF, some e)) :
    orchHandler env (.obj [("runs", .num (r : Int))]) =
      (err500 e, ⟨true, stF.genCalls, stF.parseCalls, stF.batches⟩) := by
  have hr : 0 < r := by omega
  have hOr : pyOr (.num (r : Int)) (.num 0) = .num (r : Int) := by
    simp [pyOr, pyTruthy]
    omega
  have hle : ¬((r : Int) ≤ 0) := by omega
  have htn : (r : Int).toNat = r := Int.toNat_natCast r
  have h1 : parseRawEvent env (.obj [("runs", .num (r : Int))]) =
      .ok (.obj [("runs", .num (r : Int))]) := rfl
  have h2 : pyGet (.obj [("runs", .num (r : Int))]) "runs" = .ok (.num (r : Int)) := rfl
  have h3 : pyIntE (.num (r : Int)) = .ok (r : Int) := rfl
  have h4 : pyGet (.obj [("runs", .num (r : Int))]) "question" = .ok .null := rfl
  have hgood : runLoop env 0 k (goodState env 0) = (goodState env k, none) := by
    have := runLoop_good env hL k 0
      (by intro i hi1 hi2; exact ⟨(hgoods i (by omega)).1, (hgoods i (by omega)).2⟩)
    simpa using this
  obtain ⟨d, hd⟩ : ∃ d, r - k = d + 1 := ⟨r - k - 1, by omega⟩
  have hsplit := runLoop_add env k (r - k) 0 (⟨0, [], [], 0, 0⟩ : LoopState)
  rw [show k + (r - k) = r by omega] at hsplit
  have h0 : (⟨0, [], [], 0, 0⟩ : LoopState) = goodState env 0 := rfl
  rw [h0, hgood] at hsplit
  have hfull : runLoop env 0 r (goodState env 0) = (stF, some e) := by
    rw [hsplit]
    show runLoop env (0 + k) (r - k) (goodState env k) = (stF, some e)
    rw [show 0 + k = k by omega, hd]
    show (match runIter env k (goodState env k) with
          | (st2, some e2) => (st2, some e2)
          | (st2, none) => runLoop env (k + 1) d st2) = (stF, some e)
    rw [hIter]
  simp only [orchHandler, h1, h2, hOr, h3, h4]
  rw [if_neg hle, if_pos hck]
  simp only [htn]
  rw [h0, hfull]

/-- C6: when the parser call of iteration k reports an upstream error, or
the generator invocation of iteration k fails at the transport, the run
aborts at once: the collaborator call counts stop at the failing call, the
handler returns a single 500 response carrying an error message, the batches
flushed during the first k iterations remain committed, and the buffered
rows of the unfinished group are never inserted: the store holds exactly 30
rows per committed batch and nothing else. -/
theorem claim_C6_abort_on_iteration_failure :
    ∀ k r : Nat, k < r →
      ((orchHandler (failParseEnv k) (.obj [("runs", .num (r : Int))])).1.statusCode = 500 ∧
       (∃ m, jvLookup (orchHandler (failParseEnv k)
          (.obj [("runs", .num (r : Int))])).1.body "error" = some (.str m)) ∧
       (orchHandler (failParseEnv k) (.obj [("runs", .num (r : Int))])).2.genCalls = k + 1 ∧
       (orchHandler (failParseEnv k) (.obj [("runs", .num (r : Int))])).2.parseCalls = k + 1 ∧
       (orchHandler (failParseEnv k) (.obj [("runs", .num (r : Int))])).2.batches =
         chunkBatches (iterRowsG (failParseEnv k)) (k / 10) ∧
       (flatRows (orchHandler (failParseEnv k)
          (.obj [("runs", .num (r : Int))])).2.batches).length = 30 * (k / 10)) ∧
      ((orchHandler (failGenEnv k) (.obj [("runs", .num (r : Int))])).1.statusCode = 500 ∧
       (orchHandler (failGenEnv k) (.obj [("runs", .num (r : Int))])).2.genCalls = k + 1 ∧
       (orchHandler (failGenEnv k) (.obj [("runs", .num (r : Int))])).2.parseCalls = k ∧
       (orchHandler (failGenEnv k) (.obj [("runs", .num (r : Int))])).2.batches =
         chunkBatches (iterRowsG (failGenEnv k)) (k / 10)) := by
  intro k r hkr
  constructor
  · have hpr : (failParseEnv k).parseRaw k = some "BADPARSE" := by
      simp [failParseEnv]
    have hgr : (failParseEnv k).genRaw k = some "GENENV" := rfl
    have hgen : getGeneratorAnswer (failParseEnv k) (some "GENENV") =
        .ok "Dish A; Dish B; Dish C" := rfl
    have hpar : parseAnswer (failParseEnv k) (some "BADPARSE") =
        .error (.upstream 500 (.str "boom")) := rfl
    have hIter : runIter (failParseEnv k) k (goodState (failParseEnv k) k) =
        (⟨3 * k, catRows (iterRowsG (failParseEnv k)) (10 * (k / 10)) (k % 10),
          chunkBatches (iterRowsG (failParseEnv k)) (k / 10), k + 1, k + 1⟩,
         some (.upstream 500 (.str "boom"))) := by
      simp only [goodState, runIter, hgr, hgen, hpr, hpar]
    have hmain := orchHandler_fail_at (failParseEnv k) k r hkr rfl rfl
      (by intro i hi; exact ⟨rfl, by simp [failParseEnv, hi]⟩)
      (.upstream 500 (.str "boom")) _ hIter
    refine ⟨by rw [hmain]; rfl,
      ⟨PyErr.msg (.upstream 500 (.str "boom")), by rw [hmain]; rfl⟩,
      by rw [hmain], by rw [hmain], by rw [hmain], ?_⟩
    rw [hmain]
    show (flatRows (chunkBatches (iterRowsG (failParseEnv k)) (k / 10))).length =
      30 * (k / 10)
    rw [flatRows_chunkBatches, length_catRows]
    omega
  · have hgr2 : (failGenEnv k).genRaw k = none := by
      simp [failGenEnv]
    have hIter2 : runIter (failGenEnv k) k (goodState (failGenEnv k) k) =
        (⟨3 * k, catRows (iterRowsG (failGenEnv k)) (10 * (k / 10)) (k % 10),
          chunkBatches (iterRowsG (failGenEnv k)) (k / 10), k + 1, k⟩,
         some (.clientError "failed to invoke lambda")) := by
      simp only [goodState, runIter, hgr2]
      rfl
    have hmain := orchHandler_fail_at (failGenEnv k) k r hkr rfl rfl
      (by intro i hi; exact ⟨by simp [failGenEnv, hi], rfl⟩)
      (.clientError "failed to invoke lambda") _ hIter2
    exact ⟨by rw [hmain]; rfl, by rw [hmain], by rw [hmain], by rw [hmain]⟩

theorem claim_C6_abort_on_iteration_failure_witness :
    12 < 15 ∧
    (orchHandler (failParseEnv 12) (.obj [("runs", .num ((15 : Nat) : Int))])).1.statusCode
      = 500 ∧
    (orchHandler (failParseEnv 12) (.obj [("runs", .num ((15 : Nat) : Int))])).2.genCalls
      = 13 ∧
    (orchHandler (failGenEnv 12) (.obj [("runs", .num ((15 : Nat) : Int))])).2.parseCalls
      = 12 :=
  ⟨by decide,
   (claim_C6_abort_on_iteration_failure 12 15 (by decide)).1.1,
   (claim_C6_abort_on_iteration_failure 12 15 (by decide)).1.2.2.1,
   (claim_C6_abort_on_iteration_failure 12 15 (by decide)).2.2.2.1⟩

end FoodAdvice

namespace FoodAdvice

/-- C1: the code cannot satisfy the claimed 200 contract. For every request
whose rows parameter passes validation, the handler returns status 500 with
an error body: the execute call binds three parameters against the single
placeholder of the SQL text and raises, and even the fetched row would lack
the keys top5_json, veg_users_count and users_json that the code reads,
since the query aliases are top_3 and vegetarian_users_count. -/
theorem claim_C1_stats_valid_rows_yields_500 :
    ∀ (env : SEnv) (event : JVal) (n : Int),
      parseRowsQ (qsOf event) = .ok n →
      (statsHandler env event).statusCode = 500 ∧
      (∃ m, jvLookup (statsHandler env event).body "error" = some (.str m)) := by
  intro env event n h
  cases hq : qsOf event with
  | obj fs =>
    have h2 : parseRowsQ (.obj fs) = .ok n := by
      rw [← hq]
      exact h
    have hsv : pyGetD (.obj fs) "strictVeg" (.str "false") =
        .ok ((jLookup "strictVeg" fs).getD (.str "false")) := rfl
    by_cases hc : env.connectOk
    · have hbody : statsBody env event =
          .error (.typeError "not all arguments converted during string formatting") := by
        simp only [statsBody, hq, h2, hsv]
        rw [if_pos hc]
        simp [executeStats, statsParams, statsPlaceholderCount]
      simp [statsHandler, hbody, jvLookup, jLookup]
    · have hbody : statsBody env event =
          .error (.runtimeError "could not connect to postgres") := by
        simp only [statsBody, hq, h2, hsv]
        rw [if_neg hc]
      simp [statsHandler, hbody, jvLookup, jLookup]
  | null => rw [hq] at h; simp [parseRowsQ] at h
  | bool x => rw [hq] at h; simp [parseRowsQ] at h
  | num x => rw [hq] at h; simp [parseRowsQ] at h
  | str x => rw [hq] at h; simp [parseRowsQ] at h
  | arr x => rw [hq] at h; simp [parseRowsQ] at h

theorem claim_C1_stats_valid_rows_yields_500_witness :
    parseRowsQ (qsOf (.obj [("queryStringParameters", .obj [("rows", .str "5")])])) =
      .ok 5 ∧
    (statsHandler sEnvGood
      (.obj [("queryStringParameters", .obj [("rows", .str "5")])])).statusCode = 500 :=
  ⟨rfl,
   (claim_C1_stats_valid_rows_yields_500 sEnvGood
     (.obj [("queryStringParameters", .obj [("rows", .str "5")])]) 5 rfl).1⟩

/-- C8: the rows parameter validation behaves as claimed on the 400 side:
zero, negative, missing and non-integer rows values all yield status 400,
and a value above 10000 is clamped to 10000 by the validator; but the
clamped request is then not processed without error: like every valid
request it fails with status 500 in the broken query and result handling. -/
theorem claim_C8_stats_rows_validation_and_clamp :
    parseRowsQ (.obj [("rows", .str "999999")]) = .ok 10000 ∧
    (statsHandler sEnvGood
      (.obj [("queryStringParameters", .obj [("rows", .str "999999")])])).statusCode = 500 ∧
    (statsHandler sEnvGood
      (.obj [("queryStringParameters", .obj [("rows", .str "0")])])).statusCode = 400 ∧
    (statsHandler sEnvGood
      (.obj [("queryStringParameters", .obj [("rows", .str "-3")])])).statusCode = 400 ∧
    (statsHandler sEnvGood
      (.obj [("queryStringParameters", .obj [("rows", .str "abc")])])).statusCode = 400 ∧
    (statsHandler sEnvGood (.obj [])).statusCode = 400 ∧
    (statsHandler sEnvGood
      (.obj [("queryStringParameters", .obj [("rows", .num 17)])])).statusCode = 500 :=
  ⟨rfl, rfl, rfl, rfl, rfl, rfl, rfl⟩

end FoodAdvice
